import Mathlib

/-!
# Verification of the butt-bridge status cache and command-throttling subsystem

Shallow embedding of `src/butt_bridge.py` (the `StatusCache` class and the
cache/gate/parse logic of `BUTTController`), together with proofs of the
spec's claims about it.

Modelling conventions:
* Python `datetime` timestamps are modelled as rational numbers of seconds;
  `a - b` in seconds is rational subtraction.
* Python `dict` objects are modelled as association lists with unique keys
  (`alookup` / `ainsert` / `aerase`); `del d[k]` after a membership check is
  modelled by `aerase`, which removes every binding of `k` (a Python dict has
  at most one).
* The external world (`subprocess.run`, `os.path.exists`) is passed in as
  explicit parameters: an `ExecOutcome` describing how the subprocess call
  ended, and a boolean for existence of the executable.
* The dynamically typed values stored in the cache (status dicts and booleans)
  are modelled by the sum type `CacheValue`; `get_detailed_status` returns a
  `CacheValue` just as the Python function returns whatever object was cached.
-/

namespace ButtBridge

/-! ## Association-list model of Python dicts -/

/-- Lookup of a key in an association list (first binding wins, as a Python
dict has unique keys). -/
def alookup {α : Type} : List (String × α) → String → Option α
  | [], _ => none
  | (k, v) :: rest, key => if k = key then some v else alookup rest key

/-- `d[key] = v` on a Python dict: replace the binding of `key` if present,
otherwise append a new binding. -/
def ainsert {α : Type} : List (String × α) → String → α → List (String × α)
  | [], key, v => [(key, v)]
  | (k, w) :: rest, key, v =>
      if k = key then (key, v) :: rest else (k, w) :: ainsert rest key v

/-- `del d[key]` (guarded by a membership check in the source): remove the
binding of `key`; a no-op when the key is absent. -/
def aerase {α : Type} (l : List (String × α)) (key : String) : List (String × α) :=
  l.filter (fun p => p.1 ≠ key)

/-! ## Python string helpers -/

/-- The characters Python's `str.strip()` removes. -/
def pyIsSpace (c : Char) : Bool :=
  c == ' ' || c == '\t' || c == '\n' || c == '\r' || c == '\x0b' || c == '\x0c'

/-- Python `str.strip()`. -/
def pyStrip (s : String) : String :=
  String.mk (((s.data.dropWhile pyIsSpace).reverse.dropWhile pyIsSpace).reverse)

/-- Helper for `splitChar`: split a character list at every occurrence of `c`,
accumulating the current chunk in reverse. -/
def splitCharAux (c : Char) : List Char → List Char → List String
  | [], acc => [String.mk acc.reverse]
  | x :: xs, acc =>
      if x == c then String.mk acc.reverse :: splitCharAux c xs []
      else splitCharAux c xs (x :: acc)

/-- Python `s.split(c)` for a single-character separator (used with `'\n'`). -/
def splitChar (s : String) (c : Char) : List String :=
  splitCharAux c s.data []

/-- Helper for `splitFirst`. -/
def splitFirstAux (c : Char) : List Char → Option (List Char × List Char)
  | [] => none
  | x :: xs =>
      if x == c then some ([], xs)
      else
        match splitFirstAux c xs with
        | some (a, b) => some (x :: a, b)
        | none => none

/-- Python `s.split(c, 1)` fused with the `c in s` membership test: returns
`some (before, after)` at the first occurrence of `c`, `none` when `c` does
not occur in `s`. -/
def splitFirst (s : String) (c : Char) : Option (String × String) :=
  match splitFirstAux c s.data with
  | some (a, b) => some (String.mk a, String.mk b)
  | none => none

/-- Python `str.lower()` (the status keys are ASCII). -/
def pyLower (s : String) : String :=
  String.mk (s.data.map Char.toLower)

/-! ## Configuration constants (`butt_bridge.py` lines 49-50) -/

/-- `STATUS_CACHE_DURATION = 2.0` — cache status for 2 seconds. -/
def STATUS_CACHE_DURATION : ℚ := 2

/-- `COMMAND_MIN_INTERVAL = 0.5` — minimum 500 ms between commands. -/
def COMMAND_MIN_INTERVAL : ℚ := 1/2

/-! ## Data model -/

/-- The parsed status record built by `BUTTController.get_detailed_status`. -/
structure Status where
  streaming : Bool
  recording : Bool
  connected : Bool
  connecting : Bool
  signal_present : Bool
  raw_message : Option String
  command_success : Bool
  cached : Bool
deriving DecidableEq, Repr

/-- The dynamically typed values the Python code stores in the cache:
status dicts (under `"detailed_status"`) and booleans (under
`"butt_running"`). -/
inductive CacheValue where
  | status (s : Status) : CacheValue
  | boolVal (b : Bool) : CacheValue
deriving DecidableEq, Repr

/-- State of a `StatusCache` instance: the TTL, the value cache
(`self.cache`, mapping keys to value/timestamp pairs) and the throttle map
(`self.last_command_time`). The two locks only serialize access and have no
sequential content. -/
structure StatusCache where
  ttl_seconds : ℚ
  cache : List (String × CacheValue × ℚ)
  last_command_time : List (String × ℚ)
deriving DecidableEq, Repr

namespace StatusCache

/-- `StatusCache.get` (lines 63-76): return the cached value if present and
unexpired; evict an expired entry as a side effect. Returns the Python return
value together with the updated cache state. -/
def get (st : StatusCache) (now : ℚ) (key : String) :
    Option CacheValue × StatusCache :=
  match alookup st.cache key with
  | some (v, timestamp) =>
      if now - timestamp < st.ttl_seconds then (some v, st)
      else (none, { st with cache := aerase st.cache key })
  | none => (none, st)

/-- `StatusCache.set` (lines 78-82): store the value with the current
timestamp. -/
def set (st : StatusCache) (now : ℚ) (key : String) (value : CacheValue) :
    StatusCache :=
  { st with cache := ainsert st.cache key (value, now) }

/-- `StatusCache.invalidate` (lines 84-93): with a truthy key, delete that
entry if present; with a falsy key (`None` or `""`), clear the whole cache. -/
def invalidate (st : StatusCache) (key : Option String) : StatusCache :=
  match key with
  | some k =>
      if k ≠ "" then { st with cache := aerase st.cache k }
      else { st with cache := [] }
  | none => { st with cache := [] }

/-- `StatusCache.can_send_command` (lines 95-105): throttle if less than
`COMMAND_MIN_INTERVAL` has elapsed since the last admitted command of this
type, otherwise record `now` and admit. -/
def can_send_command (st : StatusCache) (now : ℚ) (command_type : String) :
    Bool × StatusCache :=
  match alookup st.last_command_time command_type with
  | some last =>
      if now - last < COMMAND_MIN_INTERVAL then (false, st)
      else
        (true, { st with
                   last_command_time := ainsert st.last_command_time command_type now })
  | none =>
      (true, { st with
                 last_command_time := ainsert st.last_command_time command_type now })

end StatusCache

/-! ## Controller-level operations (`BUTTController`) -/

/-- How the external `subprocess.run` invocation ended: normal completion
with a return code and output streams, `subprocess.TimeoutExpired`, or any
other exception. -/
inductive ExecOutcome where
  | completed (returncode : ℤ) (stdout stderr : String) : ExecOutcome
  | timedOut : ExecOutcome
  | excRaised (emsg : String) : ExecOutcome
deriving DecidableEq, Repr

/-- One iteration of the parse loop in `get_detailed_status` (lines 502-508):
strip the line, and if it contains `':'`, split at the first `':'` and store
the trimmed lower-cased key with the trimmed value. -/
def parseLine (d : List (String × String)) (line : String) :
    List (String × String) :=
  let line := pyStrip line
  match splitFirst line ':' with
  | some (key, value) => ainsert d (pyLower (pyStrip key)) (pyStrip value)
  | none => d

/-- The `status_dict` built from the cleaned status message (lines 499-508):
split into lines and fold `parseLine` over them. -/
def parseDict (msg_clean : String) : List (String × String) :=
  (splitChar msg_clean '\n').foldl parseLine []

/-- The status record built by `get_detailed_status` from the result of the
`-S` command (lines 477-530): the all-false base record, returned as-is when
the command failed or produced an empty message, otherwise updated from the
parsed `status_dict` (`'1'` means true, a missing key leaves the default, and
`streaming` is `connected AND NOT connecting` using the already-resolved
`connecting` value). -/
def parseStatus (success : Bool) (msg : String) : Status :=
  let base : Status :=
    { streaming := false
      recording := false
      connected := false
      connecting := false
      signal_present := false
      raw_message := if success then some msg else none
      command_success := success
      cached := false }
  if !success || msg == "" then base
  else
    let d := parseDict (pyStrip msg)
    let connecting :=
      match alookup d "connecting" with
      | some v => v == "1"
      | none => base.connecting
    let connected :=
      match alookup d "connected" with
      | some v => v == "1"
      | none => base.connected
    let streaming :=
      match alookup d "connected" with
      | some v => v == "1" && !connecting
      | none => base.streaming
    let recording :=
      match alookup d "recording" with
      | some v => v == "1"
      | none => base.recording
    let signal_present :=
      match alookup d "signal present" with
      | some v => v == "1"
      | none => base.signal_present
    { base with
        streaming := streaming
        recording := recording
        connected := connected
        connecting := connecting
        signal_present := signal_present }

/-- The `try` block of `send_command` (lines 383-430): fail if the executable
is missing; on completion report `returncode == 0` as success with the
stripped stdout (else stderr, else a generic message) and invalidate the
`detailed_status` entry for truthy non-`'status'` command types; a timeout or
exception skips the invalidation. -/
def sendBody (st : StatusCache) (command_type : Option String)
    (exeExists : Bool) (butt_executable : String) (outcome : ExecOutcome) :
    (Bool × String) × StatusCache :=
  if !exeExists then
    ((false, "BUTT executable not found: " ++ butt_executable), st)
  else
    match outcome with
    | .completed returncode out err =>
        let stdout := pyStrip out
        let stderr := pyStrip err
        let success := returncode == 0
        let message :=
          if stdout ≠ "" then stdout
          else if stderr ≠ "" then stderr
          else "Command executed"
        let st' :=
          match command_type with
          | some t =>
              if t ≠ "" && t ≠ "status" then st.invalidate (some "detailed_status")
              else st
          | none => st
        ((success, message), st')
    | .timedOut => ((false, "Command timed out"), st)
    | .excRaised emsg => ((false, "Error sending command: " ++ emsg), st)

/-- `BUTTController.send_command` (lines 367-430): when a truthy
`command_type` is given, consult the gate first and return a throttled
failure without touching anything else if it rejects; otherwise run the
body. (`0.5` in the throttle message is `COMMAND_MIN_INTERVAL` as Python
formats it.) -/
def send_command (st : StatusCache) (now : ℚ) (command_type : Option String)
    (exeExists : Bool) (butt_executable : String) (outcome : ExecOutcome) :
    (Bool × String) × StatusCache :=
  match command_type with
  | some t =>
      if t == "" then sendBody st command_type exeExists butt_executable outcome
      else
        let gate := st.can_send_command now t
        if gate.1 then sendBody gate.2 command_type exeExists butt_executable outcome
        else
          ((false, "Command throttled - please wait 0.5s between " ++ t ++ " commands"),
           gate.2)
  | none => sendBody st command_type exeExists butt_executable outcome

/-- `BUTTController.quit_butt` (lines 456-461): send `-q` with command type
`'quit_butt'`; on success clear the entire cache. -/
def quit_butt (st : StatusCache) (now : ℚ) (exeExists : Bool)
    (butt_executable : String) (outcome : ExecOutcome) :
    (Bool × String) × StatusCache :=
  let r := send_command st now (some "quit_butt") exeExists butt_executable outcome
  if r.1.1 then (r.1, r.2.invalidate none) else r

/-- `BUTTController.get_detailed_status` (lines 463-536): with `use_cache`,
return an unexpired cached `detailed_status` value immediately; otherwise
send `-S` through the gate, build the status record, cache it (also on
failure) when `use_cache`, and return it. -/
def get_detailed_status (st : StatusCache) (now : ℚ) (use_cache : Bool)
    (exeExists : Bool) (butt_executable : String) (outcome : ExecOutcome) :
    CacheValue × StatusCache :=
  let hit := if use_cache then st.get now "detailed_status" else (none, st)
  match hit with
  | (some cached_status, st0) => (cached_status, st0)
  | (none, st0) =>
      let r := send_command st0 now (some "status") exeExists butt_executable outcome
      let status := parseStatus r.1.1 r.1.2
      let st2 :=
        if use_cache then r.2.set now "detailed_status" (CacheValue.status status)
        else r.2
      (CacheValue.status status, st2)

/-! ## Association-list lemmas -/

theorem alookup_ainsert_self {α : Type} (l : List (String × α)) (k : String) (v : α) :
    alookup (ainsert l k v) k = some v := by
  induction l with
  | nil => simp [ainsert, alookup]
  | cons p rest ih =>
      obtain ⟨k', w⟩ := p
      by_cases h : k' = k
      · simp [ainsert, h, alookup]
      · simp [ainsert, h, alookup, ih]

theorem alookup_ainsert_ne {α : Type} (l : List (String × α)) (k k' : String) (v : α)
    (h : k' ≠ k) : alookup (ainsert l k v) k' = alookup l k' := by
  induction l with
  | nil => simp [ainsert, alookup, Ne.symm h]
  | cons p rest ih =>
      obtain ⟨k₀, w⟩ := p
      by_cases h0 : k₀ = k
      · subst h0
        simp [ainsert, alookup, Ne.symm h]
      · simp [ainsert, h0, alookup, ih]

theorem alookup_aerase_self {α : Type} (l : List (String × α)) (k : String) :
    alookup (aerase l k) k = none := by
  induction l with
  | nil => simp [aerase, alookup]
  | cons p rest ih =>
      obtain ⟨k₀, w⟩ := p
      by_cases h0 : k₀ = k
      · simpa [aerase, h0] using ih
      · simpa [aerase, alookup, h0] using ih

theorem alookup_aerase_ne {α : Type} (l : List (String × α)) (k k' : String)
    (h : k' ≠ k) : alookup (aerase l k) k' = alookup l k' := by
  induction l with
  | nil => simp [aerase, alookup]
  | cons p rest ih =>
      obtain ⟨k₀, w⟩ := p
      by_cases h0 : k₀ = k
      · subst h0
        simp [aerase, alookup, Ne.symm h] at ih ⊢
        exact ih
      · simp [aerase, alookup, h0] at ih ⊢
        simp [ih]

/-! ## State-preservation lemmas -/

/-- `StatusCache.get` never touches the throttle map or the TTL. -/
theorem get_preserves_gate (st : StatusCache) (now : ℚ) (key : String) :
    (st.get now key).2.last_command_time = st.last_command_time ∧
    (st.get now key).2.ttl_seconds = st.ttl_seconds := by
  unfold StatusCache.get
  cases alookup st.cache key with
  | none => exact ⟨rfl, rfl⟩
  | some p =>
      obtain ⟨v, ts⟩ := p
      by_cases h : now - ts < st.ttl_seconds <;> simp [h]

/-- A `can_send_command` within `COMMAND_MIN_INTERVAL` of the last admitted
command of the same type is throttled and leaves the state unchanged. -/
theorem can_send_command_throttled_eq (st : StatusCache) (now last : ℚ) (t : String)
    (h : alookup st.last_command_time t = some last)
    (hlt : now - last < COMMAND_MIN_INTERVAL) :
    st.can_send_command now t = (false, st) := by
  simp [StatusCache.can_send_command, h, hlt]

/-- `StatusCache.can_send_command` never touches the value cache or the TTL. -/
theorem can_send_command_preserves_cache (st : StatusCache) (now : ℚ) (t : String) :
    (st.can_send_command now t).2.cache = st.cache ∧
    (st.can_send_command now t).2.ttl_seconds = st.ttl_seconds := by
  unfold StatusCache.can_send_command
  cases alookup st.last_command_time t with
  | none => exact ⟨rfl, rfl⟩
  | some last =>
      by_cases h : now - last < COMMAND_MIN_INTERVAL <;> simp [h]

/-! ## C4 — gate admission -/

/-- C4: for every command type `t`, the first `can_send_command` for an
unseen `t` is admitted and records the admission time; a call issued less
than `COMMAND_MIN_INTERVAL` after the last admitted call of `t` returns
`false` and leaves the recorded time (indeed the whole state) unchanged; a
call issued at least `COMMAND_MIN_INTERVAL` after the last admitted call
returns `true` and updates the recorded time to `now`. -/
theorem can_send_command_spec (st : StatusCache) (now : ℚ) (t : String) :
    (alookup st.last_command_time t = none →
      st.can_send_command now t =
        (true, { st with last_command_time := ainsert st.last_command_time t now })) ∧
    (∀ last, alookup st.last_command_time t = some last →
      now - last < COMMAND_MIN_INTERVAL →
      st.can_send_command now t = (false, st)) ∧
    (∀ last, alookup st.last_command_time t = some last →
      COMMAND_MIN_INTERVAL ≤ now - last →
      st.can_send_command now t =
        (true, { st with last_command_time := ainsert st.last_command_time t now })) := by
  refine ⟨fun h => ?_, fun last h hlt => ?_, fun last h hge => ?_⟩
  · simp [StatusCache.can_send_command, h]
  · simp [StatusCache.can_send_command, h, hlt]
  · simp [StatusCache.can_send_command, h, not_lt.2 hge]

theorem can_send_command_spec_witness :
    (StatusCache.can_send_command ⟨2, [], []⟩ 0 "start_stream" =
      (true, ⟨2, [], [("start_stream", 0)]⟩)) ∧
    (StatusCache.can_send_command ⟨2, [], [("start_stream", 0)]⟩ (1/4) "start_stream" =
      (false, ⟨2, [], [("start_stream", 0)]⟩)) ∧
    (StatusCache.can_send_command ⟨2, [], [("start_stream", 0)]⟩ (3/4) "start_stream" =
      (true, ⟨2, [], [("start_stream", 3/4)]⟩)) :=
  ⟨(can_send_command_spec ⟨2, [], []⟩ 0 "start_stream").1 rfl,
   (can_send_command_spec ⟨2, [], [("start_stream", 0)]⟩ (1/4) "start_stream").2.1 0 rfl
     (by norm_num [COMMAND_MIN_INTERVAL]),
   (can_send_command_spec ⟨2, [], [("start_stream", 0)]⟩ (3/4) "start_stream").2.2 0 rfl
     (by norm_num [COMMAND_MIN_INTERVAL])⟩

/-! ## C5 — gate independence -/

/-- The admission decision for `t` depends only on the throttle record of
`t`: two states agreeing on that record decide alike. -/
theorem can_send_command_decision (s s' : StatusCache) (now : ℚ) (t : String)
    (h : alookup s.last_command_time t = alookup s'.last_command_time t) :
    (s.can_send_command now t).1 = (s'.can_send_command now t).1 := by
  unfold StatusCache.can_send_command
  rw [h]
  cases alookup s'.last_command_time t with
  | none => rfl
  | some last => by_cases hc : now - last < COMMAND_MIN_INTERVAL <;> simp [hc]

/-- C5: for distinct command types `t1 ≠ t2`, a `can_send_command` for `t1`
never changes the throttle record of `t2`, and a subsequent admission
decision for `t2` (at any time `now'`) is the same as it would have been
from the original state. -/
theorem can_send_command_independent (st : StatusCache) (now now' : ℚ)
    (t1 t2 : String) (h : t1 ≠ t2) :
    alookup (st.can_send_command now t1).2.last_command_time t2 =
      alookup st.last_command_time t2 ∧
    ((st.can_send_command now t1).2.can_send_command now' t2).1 =
      (st.can_send_command now' t2).1 := by
  have hrec : alookup (st.can_send_command now t1).2.last_command_time t2 =
      alookup st.last_command_time t2 := by
    unfold StatusCache.can_send_command
    cases h1 : alookup st.last_command_time t1 with
    | none => simp [alookup_ainsert_ne _ _ _ _ (Ne.symm h)]
    | some last =>
        by_cases hc : now - last < COMMAND_MIN_INTERVAL <;>
          simp [hc, alookup_ainsert_ne _ _ _ _ (Ne.symm h)]
  exact ⟨hrec, can_send_command_decision _ st now' t2 hrec⟩

theorem can_send_command_independent_witness :
    alookup (StatusCache.can_send_command ⟨2, [], [("stop_stream", 0)]⟩ (1/4)
        "start_stream").2.last_command_time "stop_stream" =
      alookup ([("stop_stream", 0)] : List (String × ℚ)) "stop_stream" ∧
    ((StatusCache.can_send_command ⟨2, [], [("stop_stream", 0)]⟩ (1/4)
        "start_stream").2.can_send_command (1/4) "stop_stream").1 =
      (StatusCache.can_send_command ⟨2, [], [("stop_stream", 0)]⟩ (1/4) "stop_stream").1 :=
  can_send_command_independent ⟨2, [], [("stop_stream", 0)]⟩ (1/4) (1/4)
    "start_stream" "stop_stream" (by decide)

/-! ## C6 — cache TTL -/

/-- C6: for every key `k` and value `v`, a `set k v` at time `tset` followed
by a `get k` at time `tget` within the TTL returns `v` and leaves the cache
unchanged; a `get` performed once the TTL has elapsed returns not-found and
removes the entry, so it is no longer present afterwards. -/
theorem cache_ttl_spec (c : List (String × CacheValue × ℚ)) (l : List (String × ℚ))
    (k : String) (v : CacheValue) (tset tget : ℚ) :
    (tget - tset < STATUS_CACHE_DURATION →
      (StatusCache.set ⟨STATUS_CACHE_DURATION, c, l⟩ tset k v).get tget k =
        (some v, StatusCache.set ⟨STATUS_CACHE_DURATION, c, l⟩ tset k v)) ∧
    (STATUS_CACHE_DURATION ≤ tget - tset →
      ((StatusCache.set ⟨STATUS_CACHE_DURATION, c, l⟩ tset k v).get tget k).1 = none ∧
      alookup ((StatusCache.set ⟨STATUS_CACHE_DURATION, c, l⟩ tset k v).get tget k).2.cache
        k = none) := by
  constructor
  · intro hfresh
    simp [StatusCache.get, StatusCache.set, alookup_ainsert_self, hfresh]
  · intro hstale
    simp [StatusCache.get, StatusCache.set, alookup_ainsert_self, not_lt.2 hstale,
      alookup_aerase_self]

theorem cache_ttl_spec_witness :
    ((StatusCache.set ⟨STATUS_CACHE_DURATION, [], []⟩ 0 "butt_running"
        (CacheValue.boolVal true)).get 1 "butt_running" =
      (some (CacheValue.boolVal true),
       StatusCache.set ⟨STATUS_CACHE_DURATION, [], []⟩ 0 "butt_running"
         (CacheValue.boolVal true))) ∧
    (((StatusCache.set ⟨STATUS_CACHE_DURATION, [], []⟩ 0 "butt_running"
        (CacheValue.boolVal true)).get 3 "butt_running").1 = none ∧
      alookup ((StatusCache.set ⟨STATUS_CACHE_DURATION, [], []⟩ 0 "butt_running"
        (CacheValue.boolVal true)).get 3 "butt_running").2.cache "butt_running" = none) :=
  ⟨(cache_ttl_spec [] [] "butt_running" (CacheValue.boolVal true) 0 1).1
      (by norm_num [STATUS_CACHE_DURATION]),
   (cache_ttl_spec [] [] "butt_running" (CacheValue.boolVal true) 0 3).2
      (by norm_num [STATUS_CACHE_DURATION])⟩

/-! ## C10 — invalidate truthiness -/

/-- C10: `invalidate` with a falsy key (`None` or the empty string) clears
every entry of the cache, while `invalidate` with a non-empty key removes
the entry for that key and leaves every other entry unchanged. -/
theorem invalidate_spec (st : StatusCache) (k k' : String) :
    (st.invalidate none).cache = [] ∧
    (st.invalidate (some "")).cache = [] ∧
    (k ≠ "" →
      alookup (st.invalidate (some k)).cache k = none ∧
      (k' ≠ k → alookup (st.invalidate (some k)).cache k' = alookup st.cache k')) := by
  refine ⟨rfl, rfl, fun hk => ⟨?_, fun hk' => ?_⟩⟩
  · simp [StatusCache.invalidate, hk, alookup_aerase_self]
  · simp [StatusCache.invalidate, hk, alookup_aerase_ne _ _ _ hk']

theorem invalidate_spec_witness :
    (StatusCache.invalidate ⟨2, [("detailed_status", (CacheValue.boolVal false, 0)),
        ("butt_running", (CacheValue.boolVal true, 0))], []⟩ none).cache = [] ∧
    (StatusCache.invalidate ⟨2, [("detailed_status", (CacheValue.boolVal false, 0)),
        ("butt_running", (CacheValue.boolVal true, 0))], []⟩ (some "")).cache = [] ∧
    (alookup (StatusCache.invalidate ⟨2, [("detailed_status", (CacheValue.boolVal false, 0)),
        ("butt_running", (CacheValue.boolVal true, 0))], []⟩
        (some "detailed_status")).cache "detailed_status" = none ∧
      alookup (StatusCache.invalidate ⟨2, [("detailed_status", (CacheValue.boolVal false, 0)),
        ("butt_running", (CacheValue.boolVal true, 0))], []⟩
        (some "detailed_status")).cache "butt_running" =
        alookup [("detailed_status", ((CacheValue.boolVal false : CacheValue), (0 : ℚ))),
          ("butt_running", (CacheValue.boolVal true, 0))] "butt_running") :=
  ⟨(invalidate_spec _ "detailed_status" "butt_running").1,
   (invalidate_spec _ "detailed_status" "butt_running").2.1,
   (invalidate_spec ⟨2, [("detailed_status", (CacheValue.boolVal false, 0)),
        ("butt_running", (CacheValue.boolVal true, 0))], []⟩ "detailed_status"
        "butt_running").2.2 (by decide) |>.1,
   ((invalidate_spec ⟨2, [("detailed_status", (CacheValue.boolVal false, 0)),
        ("butt_running", (CacheValue.boolVal true, 0))], []⟩ "detailed_status"
        "butt_running").2.2 (by decide)).2 (by decide)⟩

/-! ## C7 — streaming derivation rule -/

/-- C7: every parsed status record satisfies
`streaming = connected AND NOT connecting`, and the concrete input
`"connected: 1\nconnecting: 1\nrecording: 0"` parses to `streaming = false`,
`connected = true`, `connecting = true`, `recording = false` — `streaming`
is computed from the resolved `connecting` value, not from the textual order
of the lines (here the `connected` line comes first). -/
theorem parse_streaming_rule :
    (∀ (success : Bool) (msg : String),
      (parseStatus success msg).streaming =
        ((parseStatus success msg).connected && !(parseStatus success msg).connecting)) ∧
    parseStatus true "connected: 1\nconnecting: 1\nrecording: 0" =
      { streaming := false
        recording := false
        connected := true
        connecting := true
        signal_present := false
        raw_message := some "connected: 1\nconnecting: 1\nrecording: 0"
        command_success := true
        cached := false } := by
  constructor
  · intro success msg
    unfold parseStatus
    by_cases hs : (!success || msg == "") = true
    · simp [hs]
    · have hs' : (!success || msg == "") = false := by
        simpa using hs
      simp only [hs', Bool.false_eq_true, if_false]
      cases hconn : alookup (parseDict (pyStrip msg)) "connected" <;>
        cases hcing : alookup (parseDict (pyStrip msg)) "connecting" <;>
          simp [hconn, hcing]
  · decide

/-! ## C8 — parser defaults, trimming and case folding -/

/-- The `value == '1'` test of the source, restated with propositional
equality. -/
theorem beq_one_eq_decide (v : String) : (v == "1") = decide (v = "1") := by
  by_cases hv : v = "1" <;> simp [hv]

/-- C8: for `success = true`, each of the boolean fields `connected`,
`connecting`, `recording` and `signal_present` is true exactly when the
corresponding key is present in the parsed dictionary with the literal value
`"1"` (so a missing key stays at its default `false`, and any other value
means `false`); keys are trimmed and case-folded and values trimmed, with
colon-less lines ignored, as the concrete `parseDict` evaluation shows; and
the empty input parses to all booleans `false` with the raw message
preserved. -/
theorem parse_defaults_spec :
    (∀ msg : String,
      (parseStatus true msg).connected =
        decide (alookup (parseDict (pyStrip msg)) "connected" = some "1") ∧
      (parseStatus true msg).connecting =
        decide (alookup (parseDict (pyStrip msg)) "connecting" = some "1") ∧
      (parseStatus true msg).recording =
        decide (alookup (parseDict (pyStrip msg)) "recording" = some "1") ∧
      (parseStatus true msg).signal_present =
        decide (alookup (parseDict (pyStrip msg)) "signal present" = some "1")) ∧
    parseDict " Signal Present : 1 \njunk\n ReCording: 0" =
      [("signal present", "1"), ("recording", "0")] ∧
    parseStatus true "" =
      { streaming := false
        recording := false
        connected := false
        connecting := false
        signal_present := false
        raw_message := some ""
        command_success := true
        cached := false } := by
  refine ⟨fun msg => ?_, by decide, by decide⟩
  by_cases hm : msg = ""
  · subst hm
    refine ⟨?_, ?_, ?_, ?_⟩ <;> decide
  · unfold parseStatus
    have hm' : (msg == "") = false := by
      simpa using hm
    simp only [hm', Bool.not_true, Bool.false_or, if_false]
    refine ⟨?_, ?_, ?_, ?_⟩ <;>
      [cases h : alookup (parseDict (pyStrip msg)) "connected";
       cases h : alookup (parseDict (pyStrip msg)) "connecting";
       cases h : alookup (parseDict (pyStrip msg)) "recording";
       cases h : alookup (parseDict (pyStrip msg)) "signal present"] <;>
      simp [h, beq_one_eq_decide]

/-! ## C9 — cached read is a pure hit -/

/-- C9: a `get_detailed_status(use_cache=True)` that finds an unexpired
`detailed_status` entry returns the cached value with the state completely
unchanged — in particular the gate's throttle records are untouched — and
the result does not depend on the external channel (`exeExists`, the
executable path and the `outcome` are arbitrary and unused). -/
theorem cached_status_read_frame (st : StatusCache) (now ts : ℚ) (v : CacheValue)
    (exeExists : Bool) (exe : String) (outcome : ExecOutcome)
    (hfound : alookup st.cache "detailed_status" = some (v, ts))
    (hfresh : now - ts < st.ttl_seconds) :
    get_detailed_status st now true exeExists exe outcome = (v, st) := by
  unfold get_detailed_status
  simp [StatusCache.get, hfound, hfresh]

theorem cached_status_read_frame_witness :
    get_detailed_status ⟨2, [("detailed_status",
        (CacheValue.status ⟨true, false, true, false, false, some "connected: 1", true, false⟩,
         0))], [("status", 0)]⟩ 1 true true "butt" ExecOutcome.timedOut =
      (CacheValue.status ⟨true, false, true, false, false, some "connected: 1", true, false⟩,
       ⟨2, [("detailed_status",
          (CacheValue.status ⟨true, false, true, false, false, some "connected: 1", true, false⟩,
           0))], [("status", 0)]⟩) :=
  cached_status_read_frame _ 1 0 _ true "butt" ExecOutcome.timedOut (by decide)
    (by norm_num)

/-! ## C1 — throttled status read -/

/-- The all-false record `get_detailed_status` builds when the `-S` command
fails (`success = False`): `raw_message` is `None`, `command_success` is
`False`. -/
def failedStatus : Status :=
  { streaming := false
    recording := false
    connected := false
    connecting := false
    signal_present := false
    raw_message := none
    command_success := false
    cached := false }

/-- A failed command always yields the all-false record, whatever the
message text. -/
theorem parseStatus_false (msg : String) : parseStatus false msg = failedStatus := rfl

/-- C1 (counterexample): at a concrete state with an empty cache and a
`status` command issued 0 s ago, `get_detailed_status(use_cache=True)` is
throttled and WRITES a throttled placeholder (all-false record,
`command_success = False`, `raw_message = None`) into the cache, timestamped
`now` — the cache is not left unchanged as the claim states. -/
theorem get_detailed_status_throttled_cex :
    (get_detailed_status ⟨2, [], [("status", 0)]⟩ 0 true true "butt"
        ExecOutcome.timedOut).2.cache =
      [("detailed_status",
        (CacheValue.status ⟨false, false, false, false, false, none, false, false⟩, 0))] ∧
    (get_detailed_status ⟨2, [], [("status", 0)]⟩ 0 true true "butt"
        ExecOutcome.timedOut).2.cache ≠ ([] : List (String × CacheValue × ℚ)) := by
  constructor <;>
    norm_num +decide [get_detailed_status, send_command, sendBody, parseStatus,
      StatusCache.get, StatusCache.set, StatusCache.can_send_command, alookup, ainsert,
      COMMAND_MIN_INTERVAL]

/-- C1 (amended): a `get_detailed_status(use_cache=True)` that finds no
unexpired `detailed_status` entry and whose `status` command is throttled by
the gate returns the all-false failure record (`command_success = False`,
`raw_message = None` — the throttled-indicator message produced by
`send_command` is not kept in the record) and stores that record in the
`detailed_status` cache entry (failed statuses are deliberately cached
briefly), so a later cached read within the TTL returns this throttled
placeholder. -/
theorem get_detailed_status_throttled (st : StatusCache) (now last : ℚ)
    (exeExists : Bool) (exe : String) (outcome : ExecOutcome)
    (hmiss : (st.get now "detailed_status").1 = none)
    (hlast : alookup st.last_command_time "status" = some last)
    (hthrot : now - last < COMMAND_MIN_INTERVAL) :
    get_detailed_status st now true exeExists exe outcome =
      (CacheValue.status failedStatus,
       ((st.get now "detailed_status").2).set now "detailed_status"
         (CacheValue.status failedStatus)) ∧
    alookup (get_detailed_status st now true exeExists exe outcome).2.cache
        "detailed_status" = some (CacheValue.status failedStatus, now) := by
  rcases hsg : st.get now "detailed_status" with ⟨a, st0⟩
  rw [hsg] at hmiss
  simp only at hmiss
  subst hmiss
  have hpres : st0.last_command_time = st.last_command_time := by
    have h := (get_preserves_gate st now "detailed_status").1
    rw [hsg] at h
    simpa using h
  have hl0 : alookup st0.last_command_time "status" = some last := by
    rw [hpres]
    exact hlast
  have hgate := can_send_command_throttled_eq st0 now last "status" hl0 hthrot
  have hmain : get_detailed_status st now true exeExists exe outcome =
      (CacheValue.status failedStatus,
       st0.set now "detailed_status" (CacheValue.status failedStatus)) := by
    unfold get_detailed_status send_command
    rw [hsg]
    simp [hgate, parseStatus_false]
  constructor
  · rw [hmain]
  · rw [hmain]
    simp [StatusCache.set, alookup_ainsert_self]

theorem get_detailed_status_throttled_witness :
    get_detailed_status ⟨2, [], [("status", 0)]⟩ (1/4) true true "butt"
        (ExecOutcome.completed 0 "connected: 1" "") =
      (CacheValue.status failedStatus,
       ((StatusCache.get ⟨2, [], [("status", 0)]⟩ (1/4) "detailed_status").2).set (1/4)
         "detailed_status" (CacheValue.status failedStatus)) ∧
    alookup (get_detailed_status ⟨2, [], [("status", 0)]⟩ (1/4) true true "butt"
        (ExecOutcome.completed 0 "connected: 1" "")).2.cache "detailed_status" =
      some (CacheValue.status failedStatus, 1/4) :=
  get_detailed_status_throttled ⟨2, [], [("status", 0)]⟩ (1/4) 0 true "butt"
    (ExecOutcome.completed 0 "connected: 1" "") (by decide) (by decide)
    (by norm_num [COMMAND_MIN_INTERVAL])

/-! ## C2 — invalidation after state-changing commands -/

/-- C2 (counterexample): a gate-admitted `start_stream` command whose
external call times out returns `(False, "Command timed out")` but leaves
the `detailed_status` cache entry in place — the timeout path performs no
invalidation, contrary to the claim. -/
theorem send_command_timeout_cex :
    send_command ⟨2, [("detailed_status",
        (CacheValue.status ⟨true, false, true, false, false, some "connected: 1", true, false⟩,
         0))], []⟩ 0 (some "start_stream") true "butt" ExecOutcome.timedOut =
      ((false, "Command timed out"),
       ⟨2, [("detailed_status",
          (CacheValue.status ⟨true, false, true, false, false, some "connected: 1", true, false⟩,
           0))], [("start_stream", 0)]⟩) := by
  decide

/-- C2 (amended): for a truthy non-`status` command type admitted by the
gate, the `detailed_status` entry is invalidated whenever the external call
runs to completion — whatever its exit code — but NOT on the timeout or
exception paths, which return the failure messages (`"Command timed out"`,
`"Error sending command: ..."`) and leave the cache exactly as it was. -/
theorem send_command_invalidation (st : StatusCache) (now : ℚ) (t exe : String)
    (rc : ℤ) (out err : String)
    (ht : t ≠ "") (hts : t ≠ "status")
    (hok : (st.can_send_command now t).1 = true) :
    alookup (send_command st now (some t) true exe
        (ExecOutcome.completed rc out err)).2.cache "detailed_status" = none ∧
    send_command st now (some t) true exe ExecOutcome.timedOut =
      ((false, "Command timed out"), (st.can_send_command now t).2) ∧
    (∀ emsg, send_command st now (some t) true exe (ExecOutcome.excRaised emsg) =
      ((false, "Error sending command: " ++ emsg), (st.can_send_command now t).2)) ∧
    (st.can_send_command now t).2.cache = st.cache := by
  have hcache := (can_send_command_preserves_cache st now t).1
  have htb : (t == "") = false := by simpa using ht
  refine ⟨?_, ?_, fun emsg => ?_, hcache⟩ <;>
    simp [send_command, htb, hok, sendBody, StatusCache.invalidate, ht, hts,
      alookup_aerase_self]

theorem send_command_invalidation_witness :
    (("stop_record" : String) ≠ "" ∧ ("stop_record" : String) ≠ "status" ∧
      ((StatusCache.can_send_command ⟨2, [("detailed_status",
          (CacheValue.boolVal true, 0))], []⟩ 0 "stop_record").1 = true)) ∧
    alookup (send_command ⟨2, [("detailed_status", (CacheValue.boolVal true, 0))], []⟩ 0
        (some "stop_record") true "butt" (ExecOutcome.completed 5 "refused" "")).2.cache
      "detailed_status" = none :=
  ⟨⟨by decide, by decide, by decide⟩,
   (send_command_invalidation ⟨2, [("detailed_status", (CacheValue.boolVal true, 0))], []⟩
      0 "stop_record" "butt" 5 "refused" "" (by decide) (by decide) (by decide)).1⟩

/-! ## C3 — quit invalidation -/

/-- C3 (counterexample): a gate-admitted `quit_butt` command whose external
call completes with exit code 1 (failure) removes only `detailed_status`;
the `butt_running` entry survives — the whole cache is NOT cleared on a
failed quit, contrary to the claim. -/
theorem quit_butt_failure_cex :
    (quit_butt ⟨2, [("butt_running", (CacheValue.boolVal true, 0)),
        ("detailed_status",
         (CacheValue.status ⟨true, false, true, false, false, some "connected: 1", true, false⟩,
          0))], []⟩ 0 true "butt" (ExecOutcome.completed 1 "" "error")).2.cache =
      [("butt_running", (CacheValue.boolVal true, 0))] := by
  decide

/-- C3 (amended): a gate-admitted quit command clears the entire cache only
when the external call succeeds (exit code 0); when it completes with a
non-zero exit code only the `detailed_status` entry is removed (every other
entry, e.g. `butt_running`, survives), and on a timeout nothing at all is
removed. -/
theorem quit_butt_invalidation (st : StatusCache) (now : ℚ) (exe out err : String)
    (hok : (st.can_send_command now "quit_butt").1 = true) :
    (quit_butt st now true exe (ExecOutcome.completed 0 out err)).2.cache = [] ∧
    (∀ rc : ℤ, rc ≠ 0 →
      (quit_butt st now true exe (ExecOutcome.completed rc out err)).2.cache =
        aerase st.cache "detailed_status") ∧
    (quit_butt st now true exe ExecOutcome.timedOut).2.cache = st.cache := by
  have hcache := (can_send_command_preserves_cache st now "quit_butt").1
  refine ⟨?_, fun rc hrc => ?_, ?_⟩
  · simp [quit_butt, send_command, hok, sendBody, StatusCache.invalidate]
  · have hrcb : (rc == 0) = false := by simpa using hrc
    simp [quit_butt, send_command, hok, sendBody, hrcb, StatusCache.invalidate, hcache]
  · simp [quit_butt, send_command, hok, sendBody, hcache]

theorem quit_butt_invalidation_witness :
    ((StatusCache.can_send_command ⟨2, [("butt_running", (CacheValue.boolVal true, 0))], []⟩
        0 "quit_butt").1 = true) ∧
    (quit_butt ⟨2, [("butt_running", (CacheValue.boolVal true, 0))], []⟩ 0 true "butt"
        (ExecOutcome.completed 0 "bye" "")).2.cache = [] :=
  ⟨by decide,
   (quit_butt_invalidation ⟨2, [("butt_running", (CacheValue.boolVal true, 0))], []⟩ 0
      "butt" "bye" "" (by decide)).1⟩

end ButtBridge
